import Mathlib

/-!
# A verification model of the blzgo transaction pipeline

This file gives a shallow embedding, in Lean, of the core transaction
pipeline of the blzgo client (package `bluzelle`): the JSON error-envelope
transport helpers, fee/gas resolution, the broadcast retry state machine,
lease-to-block conversion, and ECDSA signature serialization.  Pure Go
functions become Lean functions; the stateful client is modelled by explicit
state passing; interactions with the outside world (the HTTP transport, the
PRNG behind `makeRandomString`, the ledger account resync, and the
elliptic-curve signing primitive) are modelled by oracles carried in an
explicit `World` value, consumed deterministically in program order.

Go `int`/`int64` values are modelled as `Int` with explicit wrap-around
(`wrap64`) at the points where the Go code performs arithmetic that can
overflow.  Go's multiple-return `([]byte, error)` convention is modelled by
pairs of options; a nil slice is `none`, an empty non-nil slice is
`some []`.  A Go runtime panic (nil-pointer dereference) is a distinct
`Outcome.panicked` terminal value.

JSON bodies are modelled by the inductive `Json`.  The relevant behaviour of
`encoding/json.Unmarshal` is reproduced per target struct: unknown fields
are ignored, missing fields keep their zero value, a `null` value is a
no-op, and a type mismatch is a decode error.  Keys are matched exactly or,
failing that, case-insensitively, with later duplicate keys overwriting
earlier ones, as `encoding/json` does.  Fractional JSON numbers and `null`
elements inside arrays are not modelled (no claim depends on them).
-/

/-! ## Constants (source: `const` block of the transaction file) -/

def TX_COMMAND : String := "/txs"

def TOKEN_NAME : String := "ubnt"

def BROADCAST_MAX_RETRIES : Int := 10

def BLOCK_TIME_IN_SECONDS : Int := 5

/-! ## 64-bit wrap-around arithmetic

Go `int`/`int64` arithmetic is two's-complement and wraps on overflow.
`wrap64 x` is the unique integer congruent to `x` mod `2^64` lying in
`[-2^63, 2^63)`. -/

def wrap64 (x : Int) : Int := (x + 2 ^ 63) % 2 ^ 64 - 2 ^ 63

def goMul64 (a b : Int) : Int := wrap64 (a * b)

def goAdd64 (a b : Int) : Int := wrap64 (a + b)

/-! ## JSON model and `encoding/json` field access -/

inductive Json where
  | null
  | bool (b : Bool)
  | num (n : Int)
  | str (s : String)
  | arr (elems : List Json)
  | obj (fields : List (String × Json))

/-- ASCII-folded lower-casing used to model `encoding/json`'s
case-insensitive field matching. -/
def lowerStr (s : String) : String := ⟨s.data.map Char.toLower⟩

/-- A JSON object key matches a struct field tag exactly or case-insensitively. -/
def keyMatch (jsonKey tag : String) : Bool :=
  jsonKey = tag || lowerStr jsonKey = lowerStr tag

/-- The value assigned to the struct field with tag `tag` when decoding the
object `fields`: the last JSON key that matches the tag wins, as
`encoding/json` assigns fields sequentially. -/
def jlookupField (fields : List (String × Json)) (tag : String) : Option Json :=
  fields.foldl (fun acc p => if keyMatch p.1 tag then some p.2 else acc) none

/-- Canonical decode-error value (the model does not reproduce Go's error
message texts for `encoding/json`, only that an error is returned). -/
def jsonTypeError : String := "json: cannot unmarshal value into Go struct field"

/-- Decode a `string`-typed struct field: missing or `null` keeps the zero
value `""`; a JSON string is taken as-is; anything else is a type error. -/
def getStrField (fields : List (String × Json)) (tag : String) : Except String String :=
  match jlookupField fields tag with
  | none => .ok ""
  | some .null => .ok ""
  | some (.str s) => .ok s
  | some _ => .error jsonTypeError

/-- Decode an `int`-typed struct field: missing or `null` keeps `0`; an
integral number in `int64` range is taken; anything else is a type error. -/
def getIntField (fields : List (String × Json)) (tag : String) : Except String Int :=
  match jlookupField fields tag with
  | none => .ok 0
  | some .null => .ok 0
  | some (.num n) =>
      if n < -(2 ^ 63) ∨ n > 2 ^ 63 - 1 then .error jsonTypeError else .ok n
  | some _ => .error jsonTypeError

/-! ## Go standard-library helpers used by the pipeline -/

/-- `strconv.Atoi`.  Returns the parsed value and a success flag; on a
syntax error the value is `0`, on a range error it is the saturated
`int64` bound — the flag is `false` in both cases.  (The Go caller of the
gas field uses the returned value even when the flag is false.) -/
def goAtoi (s : String) : Int × Bool :=
  match s.data with
  | [] => (0, false)
  | cs =>
    let signDigits : Bool × List Char :=
      match cs with
      | '+' :: rest => (false, rest)
      | '-' :: rest => (true, rest)
      | rest => (false, rest)
    match signDigits with
    | (neg, ds) =>
      if ds = [] then (0, false)
      else if ds.all (fun c => c.isDigit) then
        let n : Nat := ds.foldl (fun acc c => acc * 10 + (c.toNat - 48)) 0
        let v : Int := if neg then -(n : Int) else (n : Int)
        if v < -(2 ^ 63) then (-(2 ^ 63), false)
        else if v > 2 ^ 63 - 1 then (2 ^ 63 - 1, false)
        else (v, true)
      else (0, false)

/-- Value of a hexadecimal digit, as in `encoding/hex.fromHexChar`. -/
def hexVal (c : Char) : Option Nat :=
  if '0' ≤ c ∧ c ≤ '9' then some (c.toNat - 48)
  else if 'a' ≤ c ∧ c ≤ 'f' then some (c.toNat - 97 + 10)
  else if 'A' ≤ c ∧ c ≤ 'F' then some (c.toNat - 65 + 10)
  else none

/-- Pair-wise decoding loop of `encoding/hex.Decode`: decodes complete hex
pairs until the first invalid byte; an odd trailing valid digit is a length
error.  Returns the bytes decoded so far together with the error, as the Go
function does. -/
def goHexDecodeAux : List Char → List Nat × Option String
  | [] => ([], none)
  | [c] =>
      if (hexVal c).isSome then ([], some "encoding/hex: odd length hex string")
      else ([], some "encoding/hex: invalid byte")
  | c1 :: c2 :: rest =>
      match hexVal c1 with
      | none => ([], some "encoding/hex: invalid byte")
      | some a =>
        match hexVal c2 with
        | none => ([], some "encoding/hex: invalid byte")
        | some b =>
          let r := goHexDecodeAux rest
          ((a * 16 + b) :: r.1, r.2)

/-- `hex.DecodeString`: the decoded prefix plus the error, if any. -/
def goHexDecode (s : String) : List Nat × Option String := goHexDecodeAux s.data

/-- Whether `needle` is a prefix of `hay` (`strings.HasPrefix` on rune lists). -/
def isPrefixList : List Char → List Char → Bool
  | [], _ => true
  | _ :: _, [] => false
  | a :: as, b :: bs => a = b && isPrefixList as bs

/-- Substring search over rune lists, used to model `strings.Contains`. -/
def containsList (needle : List Char) : List Char → Bool
  | [] => isPrefixList needle []
  | c :: t => isPrefixList needle (c :: t) || containsList needle t

/-- `strings.Contains s sub`. -/
def goContains (s sub : String) : Bool := containsList sub.data s.data

/-! ## Lease conversion (source: `LeaseInfo.ToBlocks`) -/

structure LeaseInfo where
  days : Int
  hours : Int
  minutes : Int
  seconds : Int

/-- `LeaseInfo.ToBlocks`: accumulate seconds (each Go `int64` operation
wraps) and divide by the block time with Go's truncating division. -/
def LeaseInfo.ToBlocks (lease : LeaseInfo) : Int :=
  let seconds : Int := 0
  let seconds := goAdd64 seconds (goMul64 (goMul64 (goMul64 lease.days 24) 60) 60)
  let seconds := goAdd64 seconds (goMul64 (goMul64 lease.hours 60) 60)
  let seconds := goAdd64 seconds (goMul64 lease.minutes 60)
  let seconds := goAdd64 seconds lease.seconds
  Int.tdiv seconds BLOCK_TIME_IN_SECONDS

/-! ## Signature serialization (source: `serializeSig`) -/

/-- `copy(dst[lo:hi], src)`: overwrite the slice window `[lo, hi)` of `dst`
with `min (hi - lo) src.length` bytes of `src`, leaving the rest intact. -/
def copySlice (dst : List Nat) (lo hi : Nat) (src : List Nat) : List Nat :=
  let n := min (hi - lo) src.length
  dst.take lo ++ src.take n ++ dst.drop (lo + n)

/-- `serializeSig`: a 64-byte buffer of zeroes with the big-endian `R` bytes
copied into `[32-len(R), 32)` and the `S` bytes into `[64-len(S), 64)`.
`rBytes`/`sBytes` stand for `sig.R.Bytes()`/`sig.S.Bytes()`, the minimal
big-endian serializations produced by `math/big`; `SignTransaction`
base64-encodes exactly these 64 bytes (the base64 codec itself is Go
standard library, assumed correct and not re-modelled). -/
def serializeSig (rBytes sBytes : List Nat) : List Nat :=
  let sigBytes := List.replicate 64 0
  let sigBytes := copySlice sigBytes (32 - rBytes.length) 32 rBytes
  let sigBytes := copySlice sigBytes (64 - sBytes.length) 64 sBytes
  sigBytes

/-! ## Data model (source: struct declarations of the transaction file) -/

structure GasInfo where
  maxGas : Int
  maxFee : Int
  gasPrice : Int

structure KeyValue where
  key : String
  value : String

structure TransactionFeeAmount where
  amount : String
  denom : String

structure TransactionFee where
  amount : List TransactionFeeAmount
  gas : String

structure TransactionSignaturePubKey where
  type : String
  value : String

structure TransactionSignature where
  accountNumber : String
  pubKey : Option TransactionSignaturePubKey
  sequence : String
  signature : String

structure TransactionMsgValue where
  key : String
  keyValues : List KeyValue
  lease : String
  n : String
  newKey : String
  owner : String
  uuid : String
  value : String

structure TransactionMsg where
  type : String
  value : Option TransactionMsgValue

/-- `TransactionBroadcastPayload`.  The Go `Fee` field is a pointer, hence
`Option`; dereferencing `none` is a nil-pointer panic. -/
structure TransactionBroadcastPayload where
  fee : Option TransactionFee
  memo : String
  msg : List TransactionMsg
  signatures : List TransactionSignature

structure TransactionValidateRequestBaseReq where
  from_ : String
  chainId : String

structure TransactionValidateRequest where
  baseReq : TransactionValidateRequestBaseReq
  key : String
  keyValues : List KeyValue
  lease : String
  n : String
  newKey : String
  owner : String
  uuid : String
  value : String

structure TransactionBroadcastRequest where
  tx : TransactionBroadcastPayload
  mode : String

structure TransactionBroadcastResponse where
  height : String
  txhash : String
  data : String
  codespace : String
  code : Int
  rawLog : String
  gasWanted : String

/-- The client's view of the ledger account.  The `Account` struct lives in
a repository file outside the excerpt; its `AccountNumber`/`Sequence` fields
are forced by their uses `ctx.account.AccountNumber`, `ctx.account.Sequence`
(Go `int`, modelled as `Int`). -/
structure Account where
  accountNumber : Int
  sequence : Int

/-- Transaction record (source: `Transaction`).  The `done`/`result`/`err`
channel fields are replaced by the explicit `Outcome` returned by the
pipeline.  `broadcastRetries` is the per-record counter declared on the
struct; note that `ProcessTransaction` writes it but `BroadcastTransaction`
reads the *client's* counter instead. -/
structure Transaction where
  key : String
  keyValues : List KeyValue
  lease : Int
  n : Nat
  newKey : String
  value : String
  apiRequestMethod : String
  apiRequestEndpoint : String
  gasInfo : Option GasInfo
  broadcastRetries : Int

/-! ## Unmarshalling of the response bodies -/

/-- `json.Unmarshal` into `ErrorResponse`: only the `error` field matters. -/
def unmarshalErrorResponse (j : Json) : Except String String :=
  match j with
  | .null => .ok ""
  | .obj fields => getStrField fields "error"
  | _ => .error jsonTypeError

/-- `json.Unmarshal` into `TransactionBroadcastResponse`. -/
def unmarshalBroadcastResponse (j : Json) : Except String TransactionBroadcastResponse :=
  match j with
  | .null => .ok ⟨"", "", "", "", 0, "", ""⟩
  | .obj fields => do
      let height ← getStrField fields "height"
      let txhash ← getStrField fields "txhash"
      let data ← getStrField fields "data"
      let codespace ← getStrField fields "codespace"
      let code ← getIntField fields "code"
      let rawLog ← getStrField fields "raw_log"
      let gasWanted ← getStrField fields "gas_wanted"
      .ok ⟨height, txhash, data, codespace, code, rawLog, gasWanted⟩
  | _ => .error jsonTypeError

/-- `json.Unmarshal` into `TransactionFeeAmount`. -/
def unmarshalFeeAmount (j : Json) : Except String TransactionFeeAmount :=
  match j with
  | .obj fields => do
      let amount ← getStrField fields "amount"
      let denom ← getStrField fields "denom"
      .ok ⟨amount, denom⟩
  | _ => .error jsonTypeError

/-- `json.Unmarshal` into `TransactionFee`. -/
def unmarshalFee (j : Json) : Except String TransactionFee :=
  match j with
  | .obj fields => do
      let amount ←
        match jlookupField fields "amount" with
        | none => .ok []
        | some .null => .ok []
        | some (.arr elems) => elems.mapM unmarshalFeeAmount
        | some _ => .error jsonTypeError
      let gas ← getStrField fields "gas"
      .ok ⟨amount, gas⟩
  | _ => .error jsonTypeError

/-- `json.Unmarshal` into `KeyValue`. -/
def unmarshalKeyValue (j : Json) : Except String KeyValue :=
  match j with
  | .obj fields => do
      let key ← getStrField fields "key"
      let value ← getStrField fields "value"
      .ok ⟨key, value⟩
  | _ => .error jsonTypeError

/-- `json.Unmarshal` into `TransactionMsgValue`. -/
def unmarshalMsgValue (j : Json) : Except String TransactionMsgValue :=
  match j with
  | .obj fields => do
      let key ← getStrField fields "Key"
      let keyValues ←
        match jlookupField fields "KeyValues" with
        | none => .ok []
        | some .null => .ok []
        | some (.arr elems) => elems.mapM unmarshalKeyValue
        | some _ => .error jsonTypeError
      let lease ← getStrField fields "Lease"
      let n ← getStrField fields "N"
      let newKey ← getStrField fields "NewKey"
      let owner ← getStrField fields "Owner"
      let uuid ← getStrField fields "UUID"
      let value ← getStrField fields "Value"
      .ok ⟨key, keyValues, lease, n, newKey, owner, uuid, value⟩
  | _ => .error jsonTypeError

/-- `json.Unmarshal` into `TransactionMsg`. -/
def unmarshalMsg (j : Json) : Except String TransactionMsg :=
  match j with
  | .obj fields => do
      let type ← getStrField fields "type"
      let value ←
        match jlookupField fields "value" with
        | none => .ok none
        | some .null => .ok none
        | some (.obj o) => (unmarshalMsgValue (.obj o)).map some
        | some _ => .error jsonTypeError
      .ok ⟨type, value⟩
  | _ => .error jsonTypeError

/-- `json.Unmarshal` into `TransactionSignaturePubKey`. -/
def unmarshalPubKey (j : Json) : Except String TransactionSignaturePubKey :=
  match j with
  | .obj fields => do
      let type ← getStrField fields "type"
      let value ← getStrField fields "value"
      .ok ⟨type, value⟩
  | _ => .error jsonTypeError

/-- `json.Unmarshal` into `TransactionSignature`. -/
def unmarshalSignature (j : Json) : Except String TransactionSignature :=
  match j with
  | .obj fields => do
      let accountNumber ← getStrField fields "account_number"
      let pubKey ←
        match jlookupField fields "pub_key" with
        | none => .ok none
        | some .null => .ok none
        | some (.obj o) => (unmarshalPubKey (.obj o)).map some
        | some _ => .error jsonTypeError
      let sequence ← getStrField fields "sequence"
      let signature ← getStrField fields "signature"
      .ok ⟨accountNumber, pubKey, sequence, signature⟩
  | _ => .error jsonTypeError

/-- `json.Unmarshal` into `TransactionBroadcastPayload`. -/
def unmarshalPayload (j : Json) : Except String TransactionBroadcastPayload :=
  match j with
  | .obj fields => do
      let fee ←
        match jlookupField fields "fee" with
        | none => .ok none
        | some .null => .ok none
        | some (.obj o) => (unmarshalFee (.obj o)).map some
        | some _ => .error jsonTypeError
      let memo ← getStrField fields "memo"
      let msg ←
        match jlookupField fields "msg" with
        | none => .ok []
        | some .null => .ok []
        | some (.arr elems) => elems.mapM unmarshalMsg
        | some _ => .error jsonTypeError
      let signatures ←
        match jlookupField fields "signatures" with
        | none => .ok []
        | some .null => .ok []
        | some (.arr elems) => elems.mapM unmarshalSignature
        | some _ => .error jsonTypeError
      .ok ⟨fee, memo, msg, signatures⟩
  | _ => .error jsonTypeError

/-- `json.Unmarshal` into `TransactionValidateResponse`
(`{type, value : *TransactionBroadcastPayload}`).  A missing or `null`
`value` field leaves the pointer nil. -/
def unmarshalValidateResponse (j : Json) :
    Except String (String × Option TransactionBroadcastPayload) :=
  match j with
  | .null => .ok ("", none)
  | .obj fields => do
      let type ← getStrField fields "type"
      let value ←
        match jlookupField fields "value" with
        | none => .ok none
        | some .null => .ok none
        | some (.obj o) => (unmarshalPayload (.obj o)).map some
        | some _ => .error jsonTypeError
      .ok (type, value)
  | _ => .error jsonTypeError

/-! ## World, client state and observable events

The HTTP transport, the PRNG, the account resync and the signing key are
the program's interfaces to the outside world; each is an oracle in `World`,
consumed in program order.  The `trace` field records the externally
observable actions the pipeline performs, in order. -/

/-- A raw HTTP response body: either bytes that are not valid JSON, or the
JSON value the bytes parse to. -/
inductive Body where
  | invalid
  | json (j : Json)

/-- Observable pipeline actions. -/
inductive Event where
  /-- The validate request POSTed by `ValidateTransaction` via `APIMutate`. -/
  | validatePost (req : TransactionValidateRequest)
  /-- The broadcast envelope POSTed to `/txs` by `BroadcastTransaction`. -/
  | broadcastPost (req : TransactionBroadcastRequest)
  /-- `time.Sleep(BROADCAST_RETRY_INTERVAL)` — the fixed 1-second backoff. -/
  | sleep
  /-- `ctx.setAccount()` — the account resync against the ledger. -/
  | resync

/-- Canonical sign payload (source: `TransactionBroadcastPayloadSignPayload`). -/
structure SignPayload where
  accountNumber : String
  chainId : String
  fee : Option TransactionFee
  memo : String
  msgs : List TransactionMsg
  sequence : String

/-- Immutable client configuration: `ctx.options`, `ctx.Address`, the
base64 compressed public key derived from `ctx.privateKey`, and the signing
primitive.  `signFn` stands for `json.Marshal` + `sanitizeString` +
`tmcrypto.Sha256` + `ctx.privateKey.Sign` + `serializeSig` + base64 — the
deterministic crypto chain of `SignTransaction`, out of scope per the spec
and represented as an oracle that may fail (an unusable key). -/
structure ClientOpts where
  chainId : String
  uuid : String
  address : String
  pubKeyB64 : String
  signFn : SignPayload → Except String String

/-- Oracle streams plus the event trace. -/
structure World where
  /-- Successive outputs of the PRNG draws `rand.Intn(62)` consumed by
  `makeRandomString` (each draw is below 62). -/
  randDraws : List Nat
  /-- Successive outcomes of HTTP round-trips, consumed by `APIQuery` and
  `APIMutate` in program order: a transport error, or a status code plus
  response body. -/
  https : List (Except String (Nat × Body))
  /-- Successive results of `ctx.setAccount()`: an error or the freshly
  fetched ledger account. -/
  resyncs : List (Except String Account)
  /-- Observable actions performed so far. -/
  trace : List Event

/-- Mutable per-client state: `ctx.account` and `ctx.broadcastRetries`.
Both fields live on the `Client` struct (declared outside the excerpt,
forced by the uses `ctx.account.Sequence += 1` and
`ctx.broadcastRetries += 1`); they persist across submitted records. -/
structure ClientSt where
  account : Account
  broadcastRetries : Int

/-- Terminal result of one submitted record: the Go pair
`([]byte, error)` (nil slice = `none`), or a runtime panic. -/
inductive Outcome where
  | ret (result : Option (List Nat)) (err : Option String)
  | panicked (msg : String)
deriving DecidableEq

def pushEvent (e : Event) (w : World) : World := { w with trace := w.trace ++ [e] }

/-! ## `makeRandomString` -/

/-- The 62-character alphabet of `makeRandomString`. -/
def randAlphabet : List Char :=
  "ABCDEFGHIJKLMNOPQRSTUVWXYZabcdefghijklmnopqrstuvwxyz0123456789".data

/-- `makeRandomString length`: one character per PRNG draw
(`chars[rand.Intn(len(chars))]`).  The draws are the oracle values; `% 62`
only totalizes the indexing (actual draws are below 62). -/
def makeRandomString (length : Nat) (draws : List Nat) : String :=
  ⟨(draws.take length).map (fun d => randAlphabet.getD (d % 62) 'A')⟩

/-- Draw `n` PRNG values from the world. -/
def takeRandoms (n : Nat) (w : World) : String × World :=
  (makeRandomString n w.randDraws, { w with randDraws := w.randDraws.drop n })

/-! ## HTTP transport (source: `parseResponse`, `APIQuery`, `APIMutate`) -/

/-- `parseResponse`: read the body, unmarshal it into `ErrorResponse`, and
fail with the embedded error string when it is nonempty; otherwise hand the
body back to the caller.  The HTTP status code is never consulted. -/
def parseResponse (status : Nat) (body : Body) : Except String Json :=
  match status, body with
  | _, .invalid => .error jsonTypeError
  | _, .json j =>
    match unmarshalErrorResponse j with
    | .error e => .error e
    | .ok errStr => if errStr ≠ "" then .error errStr else .ok j

/-- One HTTP round-trip against the transport oracle followed by
`parseResponse`.  An exhausted oracle is a transport error (scenarios always
supply enough responses). -/
def httpRoundTrip (w : World) : Except String Json × World :=
  match w.https with
  | [] => (.error "transport: no response", w)
  | r :: rest =>
    let w := { w with https := rest }
    match r with
    | .error e => (.error e, w)
    | .ok (status, body) => (parseResponse status body, w)

/-- `APIQuery`: `http.Get` on `options.Endpoint + endpoint`, then
`parseResponse`.  The URL does not influence the oracle's answer. -/
def apiQuery (_endpoint : String) (w : World) : Except String Json × World :=
  httpRoundTrip w

/-- `APIMutate`: build the request with the given method and marshalled
payload, run it, then `parseResponse`.  The method, URL and payload bytes
do not influence the oracle's answer; the payload is recorded by the caller
as a trace event. -/
def apiMutate (_method _endpoint : String) (w : World) : Except String Json × World :=
  httpRoundTrip w

/-! ## Validate (source: `ValidateTransaction`) -/

/-- The validate request built from the record and the client options
(`strconv.FormatInt`/`FormatUint` render the numeric fields). -/
def mkValidateRequest (opts : ClientOpts) (txn : Transaction) : TransactionValidateRequest :=
  { baseReq := { from_ := opts.address, chainId := opts.chainId }
    uuid := opts.uuid
    key := txn.key
    keyValues := txn.keyValues
    lease := toString txn.lease
    n := toString txn.n
    newKey := txn.newKey
    owner := opts.address
    value := txn.value }

/-- `ValidateTransaction`: marshal the validate request (marshalling of
these struct types cannot fail), POST it via `APIMutate`, and unmarshal the
body into `TransactionValidateResponse`, returning its `Value` pointer.
The pointer is nil (`none`) whenever the body carries no `value` field. -/
def validateTransaction (opts : ClientOpts) (txn : Transaction) (w : World) :
    Except String (Option TransactionBroadcastPayload) × World :=
  let req := mkValidateRequest opts txn
  let w := pushEvent (.validatePost req) w
  match apiMutate txn.apiRequestMethod txn.apiRequestEndpoint w with
  | (.error e, w) => (.error e, w)
  | (.ok j, w) =>
    match unmarshalValidateResponse j with
    | .error e => (.error e, w)
    | .ok (_, value) => (.ok value, w)

/-! ## Fee resolution (source: the `Set fee` block of `BroadcastTransaction`) -/

/-- The fee computation of `BroadcastTransaction`: parse the template gas
(using the parsed value even if parsing failed, after logging), take the
first template fee amount when it parses, clamp gas to `MaxGas`, then apply
the `MaxFee` / `GasPrice` precedence.  The `gas * GasPrice` product is Go
`int` arithmetic, hence wraps. -/
def resolveFee (feeTemplate : TransactionFee) (gasInfo : GasInfo) : TransactionFee :=
  let gas0 := (goAtoi feeTemplate.gas).1
  let amount0 : Int :=
    match feeTemplate.amount.head? with
    | some a => if (goAtoi a.amount).2 then (goAtoi a.amount).1 else 0
    | none => 0
  let gas1 := if gasInfo.maxGas ≠ 0 ∧ gas0 > gasInfo.maxGas then gasInfo.maxGas else gas0
  let amount1 :=
    if gasInfo.maxFee ≠ 0 then gasInfo.maxFee
    else if gasInfo.gasPrice ≠ 0 then goMul64 gas1 gasInfo.gasPrice
    else amount0
  { gas := toString gas1
    amount := [{ denom := TOKEN_NAME, amount := toString amount1 }] }

/-! ## Signer (source: `SignTransaction`) -/

/-- `tmsecp256k1.PubKeyAminoName`. -/
def pubKeyAminoName : String := "tendermint/PubKeySecp256k1"

/-- `SignTransaction`: build the canonical sign payload from the current
account state and the transaction, then apply the signing chain. -/
def signTransaction (opts : ClientOpts) (cs : ClientSt)
    (txn : TransactionBroadcastPayload) : Except String String :=
  opts.signFn
    { accountNumber := toString cs.account.accountNumber
      chainId := opts.chainId
      sequence := toString cs.account.sequence
      memo := txn.memo
      fee := txn.fee
      msgs := txn.msg }

/-! ## Account resync

Modelled from the spec: `ctx.setAccount()` re-fetches the signer's account
(number and sequence) from the ledger — "authoritative resync"; its body is
not part of the excerpt.  The fetched account, or the fetch error, comes
from the `resyncs` oracle; the caller installs the fetched account into the
client state. -/
def setAccount (w : World) : Except String Account × World :=
  let w := pushEvent .resync w
  match w.resyncs with
  | [] => (.error "resync: no response", w)
  | r :: rest => (r, { w with resyncs := rest })

/-! ## Broadcast with retry (source: `BroadcastTransaction`) -/

/-- The conflict marker searched for in `raw_log`. -/
def conflictMarker : String := "signature verification failed"

/-- `BroadcastTransaction`.  Takes the (possibly nil) broadcast payload
pointer and gas policy; writes `txn.Memo` first — a nil payload therefore
panics.  On a zero response code the account sequence is incremented and
the (possibly empty, possibly hex-decoded) data field is returned.  On a
conflict the client-level retry counter is incremented, and unless it
reached `BROADCAST_MAX_RETRIES` the client sleeps, resyncs the account and
recurses with the same payload.  Any other nonzero code surfaces `raw_log`
verbatim. -/
def broadcastTransaction (opts : ClientOpts) (payload : Option TransactionBroadcastPayload)
    (gasInfo : Option GasInfo) (cs : ClientSt) (w : World) : Outcome × ClientSt × World :=
  match payload with
  | none => (.panicked "runtime error: invalid memory address or nil pointer dereference", cs, w)
  | some txn =>
    -- Set memo
    match takeRandoms 32 w with
    | (memo, w) =>
    let txn := { txn with memo := memo }
    -- Set fee
    match gasInfo with
    | none => (.ret none (some "gas_info is required"), cs, w)
    | some gi =>
      match txn.fee with
      | none => (.panicked "runtime error: invalid memory address or nil pointer dereference", cs, w)
      | some feeTemplate =>
        let txn := { txn with fee := some (resolveFee feeTemplate gi) }
        -- Set signatures
        match signTransaction opts cs txn with
        | .error e => (.ret none (some e), cs, w)
        | .ok signature =>
          let txn :=
            { txn with
                signatures :=
                  [{ pubKey := some { type := pubKeyAminoName, value := opts.pubKeyB64 }
                     signature := signature
                     accountNumber := toString cs.account.accountNumber
                     sequence := toString cs.account.sequence }] }
          -- Broadcast txn (marshalling the request cannot fail)
          let req : TransactionBroadcastRequest := { tx := txn, mode := "block" }
          let w := pushEvent (.broadcastPost req) w
          match apiMutate "POST" TX_COMMAND w with
          | (.error e, w) => (.ret none (some e), cs, w)
          | (.ok j, w) =>
            -- Read txn broadcast response
            match unmarshalBroadcastResponse j with
            | .error e => (.ret none (some e), cs, w)
            | .ok res =>
              if res.code = 0 then
                let cs := { cs with account.sequence := cs.account.sequence + 1 }
                if res.data = "" then (.ret (some []) none, cs, w)
                else
                  match goHexDecode res.data with
                  | (decodedData, err) => (.ret (some decodedData) err, cs, w)
              else if goContains res.rawLog conflictMarker then
                let cs := { cs with broadcastRetries := cs.broadcastRetries + 1 }
                if cs.broadcastRetries ≥ BROADCAST_MAX_RETRIES then
                  (.ret none (some "txn failed after max retry attempts"), cs, w)
                else
                  let w := pushEvent .sleep w
                  -- Lookup changed sequence
                  match setAccount w with
                  | (.error e, w) => (.ret none (some e), cs, w)
                  | (.ok a, w) => broadcastTransaction opts (some txn) (some gi) { cs with account := a } w
              else
                (.ret none (some res.rawLog), cs, w)
termination_by (BROADCAST_MAX_RETRIES - cs.broadcastRetries).toNat
decreasing_by
  simp only [BROADCAST_MAX_RETRIES] at *
  omega

/-! ## Worker body (source: `ProcessTransaction`)

`SendTransaction` enqueues the record for the single worker goroutine, which
runs `ProcessTransaction` and delivers the record's result/error pair back
through the completion channel; the queue handshake itself is concurrency
glue outside this model, so a submission is modelled as one
`processTransaction` call. -/

/-- `ProcessTransaction`: zero the *record's* retry counter (note: not the
client counter the retry loop actually reads), validate, then broadcast. -/
def processTransaction (opts : ClientOpts) (txn : Transaction) (cs : ClientSt) (w : World) :
    Outcome × ClientSt × World :=
  let txn := { txn with broadcastRetries := 0 }
  match validateTransaction opts txn w with
  | (.error e, w) => (.ret none (some e), cs, w)
  | (.ok payload, w) => broadcastTransaction opts payload txn.gasInfo cs w

/-! ## Trace observations -/

def isBroadcastPost : Event → Bool
  | .broadcastPost _ => true
  | _ => false

def isValidatePost : Event → Bool
  | .validatePost _ => true
  | _ => false

def isResync : Event → Bool
  | .resync => true
  | _ => false

def isSleep : Event → Bool
  | .sleep => true
  | _ => false

def countBroadcastPosts (tr : List Event) : Nat := (tr.filter isBroadcastPost).length

def countValidatePosts (tr : List Event) : Nat := (tr.filter isValidatePost).length

def countResyncs (tr : List Event) : Nat := (tr.filter isResync).length

def countSleeps (tr : List Event) : Nat := (tr.filter isSleep).length

/-- The memo carried by each broadcast POST, in order. -/
def broadcastMemos (tr : List Event) : List String :=
  tr.filterMap fun e =>
    match e with
    | .broadcastPost req => some req.tx.memo
    | _ => none

/-- Every `resync` in the trace is immediately preceded by a `sleep`
(the fixed 1-second backoff). -/
def resyncsPrecededBySleepAux : Event → List Event → Bool
  | _, [] => true
  | prev, e :: rest =>
    (match e, prev with
     | .resync, .sleep => true
     | .resync, _ => false
     | _, _ => true) && resyncsPrecededBySleepAux e rest

def resyncsPrecededBySleep : List Event → Bool
  | [] => true
  | .resync :: _ => false
  | e :: rest => resyncsPrecededBySleepAux e rest

/-! ## Arithmetic lemmas about `wrap64` -/

theorem wrap64_eq_self {a : Int} (h1 : -(2 ^ 63) ≤ a) (h2 : a < 2 ^ 63) : wrap64 a = a := by
  unfold wrap64
  omega

theorem wrap64_add_left (a b : Int) : wrap64 (wrap64 a + b) = wrap64 (a + b) := by
  unfold wrap64
  omega

theorem wrap64_add_right (a b : Int) : wrap64 (a + wrap64 b) = wrap64 (a + b) := by
  unfold wrap64
  omega

theorem wrap64_sub_mul (a q : Int) : wrap64 (a - 2 ^ 64 * q) = wrap64 a := by
  unfold wrap64
  omega

theorem wrap64_as_sub (a : Int) : wrap64 a = a - 2 ^ 64 * ((a + 2 ^ 63) / 2 ^ 64) := by
  unfold wrap64
  rw [Int.emod_def]
  ring

theorem wrap64_mul_left (a b : Int) : wrap64 (wrap64 a * b) = wrap64 (a * b) := by
  rw [wrap64_as_sub a]
  have h : (a - 2 ^ 64 * ((a + 2 ^ 63) / 2 ^ 64)) * b = a * b - 2 ^ 64 * (((a + 2 ^ 63) / 2 ^ 64) * b) := by
    ring
  rw [h, wrap64_sub_mul]

/-- `ToBlocks` collapses to a single wrap of the mathematical total: the
intermediate wraps are absorbed because reduction mod `2^64` is a ring
homomorphism. -/
theorem toBlocks_wrap (lease : LeaseInfo) :
    lease.ToBlocks =
      Int.tdiv
        (wrap64 (lease.days * 86400 + lease.hours * 3600 + lease.minutes * 60 + lease.seconds)) 5 := by
  unfold LeaseInfo.ToBlocks goAdd64 goMul64 BLOCK_TIME_IN_SECONDS
  simp only [wrap64_mul_left, wrap64_add_left, wrap64_add_right, zero_add]
  congr 1
  ring_nf

/-- Claim C8: for every `LeaseInfo`, `ToBlocks` returns
`(days*86400 + hours*3600 + minutes*60 + seconds) / 5` with truncating
integer division (whenever the total fits an `int64`, which the Go struct
fields make implicit); in particular one day yields 17280 blocks. -/
theorem claimC8_toBlocks :
    (∀ lease : LeaseInfo,
        -(2 ^ 63) ≤ lease.days * 86400 + lease.hours * 3600 + lease.minutes * 60 + lease.seconds →
        lease.days * 86400 + lease.hours * 3600 + lease.minutes * 60 + lease.seconds < 2 ^ 63 →
        lease.ToBlocks =
          Int.tdiv (lease.days * 86400 + lease.hours * 3600 + lease.minutes * 60 + lease.seconds)
            BLOCK_TIME_IN_SECONDS) ∧
      LeaseInfo.ToBlocks ⟨1, 0, 0, 0⟩ = 17280 := by
  constructor
  · intro lease h1 h2
    rw [toBlocks_wrap, wrap64_eq_self h1 h2]
    rfl
  · rw [toBlocks_wrap, wrap64_eq_self (by norm_num) (by norm_num)]
    rfl

/-- Witness for claim C8 at a concrete lease. -/
theorem claimC8_toBlocks_witness :
    LeaseInfo.ToBlocks ⟨2, 3, 4, 5⟩ =
      Int.tdiv (2 * 86400 + 3 * 3600 + 4 * 60 + 5) BLOCK_TIME_IN_SECONDS :=
  claimC8_toBlocks.1 ⟨2, 3, 4, 5⟩ (by decide) (by decide)

/-- First `copy` of `serializeSig`: the R bytes land in `[32-len, 32)` of
the zero buffer. -/
theorem copySlice_rBytes (r : List Nat) (hr : r.length ≤ 32) :
    copySlice (List.replicate 64 0) (32 - r.length) 32 r =
      List.replicate (32 - r.length) 0 ++ r ++ List.replicate 32 0 := by
  simp only [copySlice]
  have hn : 32 - (32 - r.length) = r.length := by omega
  rw [hn, min_self, List.take_replicate, List.take_length]
  have h32 : 32 - r.length + r.length = 32 := by omega
  rw [h32, List.drop_replicate]
  have hmin : min (32 - r.length) 64 = 32 - r.length := by omega
  rw [hmin]

/-- Second `copy` of `serializeSig`: the S bytes land in `[64-len, 64)`,
leaving the R half intact. -/
theorem copySlice_sBytes (front : List Nat) (hf : front.length = 32)
    (s : List Nat) (hs : s.length ≤ 32) :
    copySlice (front ++ List.replicate 32 0) (64 - s.length) 64 s =
      front ++ (List.replicate (32 - s.length) 0 ++ s) := by
  simp only [copySlice]
  have hn : 64 - (64 - s.length) = s.length := by omega
  rw [hn, min_self, List.take_append_eq_append_take, List.take_of_length_le (by omega),
    List.take_replicate, List.take_length]
  have h64 : 64 - s.length + s.length = 64 := by omega
  rw [h64, List.drop_eq_nil_of_le (by simp [hf]), hf]
  have hmin : min (64 - s.length - 32) 32 = 32 - s.length := by omega
  rw [hmin]
  simp

/-- Structure of `serializeSig`: left-zero-padded R followed by
left-zero-padded S. -/
theorem serializeSig_eq (r s : List Nat) (hr : r.length ≤ 32) (hs : s.length ≤ 32) :
    serializeSig r s =
      (List.replicate (32 - r.length) 0 ++ r) ++ (List.replicate (32 - s.length) 0 ++ s) := by
  simp only [serializeSig]
  rw [copySlice_rBytes r hr]
  have hassoc : List.replicate (32 - r.length) 0 ++ r ++ List.replicate 32 0 =
      (List.replicate (32 - r.length) 0 ++ r) ++ List.replicate 32 0 := by
    simp [List.append_assoc]
  rw [hassoc, copySlice_sBytes _ (by simp; omega) s hs]

/-- Claim C7: whenever the big-endian R and S serializations are at most 32
bytes each, `serializeSig` (the byte string that `SignTransaction`
base64-encodes into the signature field) is exactly 64 bytes: bytes 0–31
are R left-zero-padded to 32 bytes, bytes 32–63 are S left-zero-padded. -/
theorem claimC7_serializeSig (rBytes sBytes : List Nat)
    (hr : rBytes.length ≤ 32) (hs : sBytes.length ≤ 32) :
    (serializeSig rBytes sBytes).length = 64 ∧
      (serializeSig rBytes sBytes).take 32 = List.replicate (32 - rBytes.length) 0 ++ rBytes ∧
      (serializeSig rBytes sBytes).drop 32 = List.replicate (32 - sBytes.length) 0 ++ sBytes := by
  have hR : (List.replicate (32 - rBytes.length) (0 : Nat) ++ rBytes).length = 32 := by
    simp; omega
  refine ⟨?_, ?_, ?_⟩
  · rw [serializeSig_eq rBytes sBytes hr hs]
    simp; omega
  · rw [serializeSig_eq rBytes sBytes hr hs, List.take_left' hR]
  · rw [serializeSig_eq rBytes sBytes hr hs, List.drop_left' hR]

/-- Witness for claim C7: a 2-byte R and a 1-byte S pad to a full 64-byte
signature. -/
theorem claimC7_serializeSig_witness :
    (serializeSig [1, 2] [3]).length = 64 ∧
      (serializeSig [1, 2] [3]).take 32 = List.replicate 30 0 ++ [1, 2] ∧
      (serializeSig [1, 2] [3]).drop 32 = List.replicate 31 0 ++ [3] :=
  claimC7_serializeSig [1, 2] [3] (by decide) (by decide)

/-- Claim C6: any response body that is a JSON object carrying a nonempty
`error` string field makes `parseResponse` — and therefore both `APIQuery`
and `APIMutate` — surface that string as the error, with no byte buffer,
whatever the HTTP status code was. -/
theorem claimC6_error_envelope (status : Nat) (fields : List (String × Json)) (s : String)
    (rest : List (Except String (Nat × Body))) (w : World)
    (endpoint method mutateEndpoint : String)
    (hlook : jlookupField fields "error" = some (.str s))
    (hne : s ≠ "")
    (hw : w.https = .ok (status, .json (.obj fields)) :: rest) :
    parseResponse status (.json (.obj fields)) = .error s ∧
      (apiQuery endpoint w).1 = .error s ∧
      (apiMutate method mutateEndpoint w).1 = .error s := by
  have hp : parseResponse status (.json (.obj fields)) = .error s := by
    simp [parseResponse, unmarshalErrorResponse, getStrField, hlook, hne]
  refine ⟨hp, ?_, ?_⟩ <;>
    simp [apiQuery, apiMutate, httpRoundTrip, hw, hp]

/-- Witness for claim C6: a 200-status body carrying an error envelope. -/
theorem claimC6_error_envelope_witness :
    parseResponse 200 (.json (.obj [("error", .str "key not found")])) = .error "key not found" ∧
      (apiQuery "/read"
          { randDraws := [],
            https := [.ok (200, .json (.obj [("error", .str "key not found")]))],
            resyncs := [], trace := [] }).1 = .error "key not found" ∧
      (apiMutate "POST" "/crud/read"
          { randDraws := [],
            https := [.ok (200, .json (.obj [("error", .str "key not found")]))],
            resyncs := [], trace := [] }).1 = .error "key not found" :=
  claimC6_error_envelope 200 [("error", .str "key not found")] "key not found" []
    _ "/read" "POST" "/crud/read" rfl (by decide) rfl

/-! ## Claim-side fee resolution (following the spec text, for comparison
with the source-derived `resolveFee`) -/

/-- Spec wording: "gas is the template's gas, clamped to `gasPolicy.maxGas`
when `maxGas` is nonzero and smaller than gas". -/
def specResolvedGas (templateGas : Int) (gasPolicy : GasInfo) : Int :=
  if gasPolicy.maxGas ≠ 0 ∧ gasPolicy.maxGas < templateGas then gasPolicy.maxGas else templateGas

/-- Spec wording: "if `gasPolicy.maxFee` is nonzero the amount equals
`maxFee` regardless of gas and gasPrice; otherwise, if `gasPolicy.gasPrice`
is nonzero, the amount equals the clamped gas times `gasPrice`; otherwise
the template amount is kept". -/
def specResolvedAmount (templateGas : Int) (templateAmount : Option Int)
    (gasPolicy : GasInfo) : Int :=
  if gasPolicy.maxFee ≠ 0 then gasPolicy.maxFee
  else if gasPolicy.gasPrice ≠ 0 then specResolvedGas templateGas gasPolicy * gasPolicy.gasPrice
  else templateAmount.getD 0

/-- Spec wording: "the amount starts from `template.fee.amount[0]` if
present, else 0" — the first template amount as a parsed integer (an
unparseable amount counts as absent, as in the source). -/
def templateAmount0 (feeTemplate : TransactionFee) : Option Int :=
  feeTemplate.amount.head?.map fun a => if (goAtoi a.amount).2 then (goAtoi a.amount).1 else 0

/-- Claim C3: `BroadcastTransaction`'s fee block (`resolveFee`) computes
exactly the gas clamp and the `maxFee` > `gasPrice` > template-amount
precedence stated by the spec, for every template whose gas field parses
(and with the `gas * gasPrice` product in `int64` range); in particular
`maxGas = 30` against template gas 50 broadcasts gas 30. -/
theorem claimC3_fee_resolution :
    (∀ (feeTemplate : TransactionFee) (gasPolicy : GasInfo) (g : Int),
        goAtoi feeTemplate.gas = (g, true) →
        -(2 ^ 63) ≤ specResolvedGas g gasPolicy * gasPolicy.gasPrice →
        specResolvedGas g gasPolicy * gasPolicy.gasPrice < 2 ^ 63 →
        resolveFee feeTemplate gasPolicy =
          { gas := toString (specResolvedGas g gasPolicy),
            amount := [{ denom := TOKEN_NAME,
                         amount := toString
                           (specResolvedAmount g (templateAmount0 feeTemplate) gasPolicy) }] }) ∧
      (resolveFee { amount := [], gas := "50" } { maxGas := 30, maxFee := 0, gasPrice := 0 }).gas
        = "30" := by
  constructor
  · intro feeTemplate gasPolicy g hg h1 h2
    simp only [resolveFee, hg, specResolvedGas, specResolvedAmount, templateAmount0, goMul64]
    have hgas :
        (if gasPolicy.maxGas ≠ 0 ∧ g > gasPolicy.maxGas then gasPolicy.maxGas else g) =
          if gasPolicy.maxGas ≠ 0 ∧ gasPolicy.maxGas < g then gasPolicy.maxGas else g := rfl
    rw [hgas]
    simp only [specResolvedGas] at h1 h2
    rw [wrap64_eq_self h1 h2]
    congr 1
    cases h : feeTemplate.amount with
    | nil => simp [h]
    | cons a tl => simp [h]
  · rfl

/-- Witness for claim C3: template gas "50", first amount "7", policy
`maxGas 30, gasPrice 5` — clamped gas 30, amount 150. -/
theorem claimC3_fee_resolution_witness :
    resolveFee { amount := [{ amount := "7", denom := "ubnt" }], gas := "50" }
        { maxGas := 30, maxFee := 0, gasPrice := 5 } =
      { gas := toString (specResolvedGas 50 { maxGas := 30, maxFee := 0, gasPrice := 5 }),
        amount := [{ denom := TOKEN_NAME,
                     amount := toString
                       (specResolvedAmount 50
                         (templateAmount0 { amount := [{ amount := "7", denom := "ubnt" }], gas := "50" })
                         { maxGas := 30, maxFee := 0, gasPrice := 5 }) }] } :=
  claimC3_fee_resolution.1 { amount := [{ amount := "7", denom := "ubnt" }], gas := "50" }
    { maxGas := 30, maxFee := 0, gasPrice := 5 } 50 rfl (by decide) (by decide)

/-! ## Small facts about worlds and traces -/

@[simp] theorem pushEvent_randDraws (e : Event) (w : World) :
    (pushEvent e w).randDraws = w.randDraws := rfl

@[simp] theorem pushEvent_https (e : Event) (w : World) :
    (pushEvent e w).https = w.https := rfl

@[simp] theorem pushEvent_resyncs (e : Event) (w : World) :
    (pushEvent e w).resyncs = w.resyncs := rfl

@[simp] theorem pushEvent_trace (e : Event) (w : World) :
    (pushEvent e w).trace = w.trace ++ [e] := rfl

@[simp] theorem countBroadcastPosts_append (t1 t2 : List Event) :
    countBroadcastPosts (t1 ++ t2) = countBroadcastPosts t1 + countBroadcastPosts t2 := by
  simp [countBroadcastPosts, List.filter_append]

@[simp] theorem countValidatePosts_append (t1 t2 : List Event) :
    countValidatePosts (t1 ++ t2) = countValidatePosts t1 + countValidatePosts t2 := by
  simp [countValidatePosts, List.filter_append]

@[simp] theorem countResyncs_append (t1 t2 : List Event) :
    countResyncs (t1 ++ t2) = countResyncs t1 + countResyncs t2 := by
  simp [countResyncs, List.filter_append]

@[simp] theorem countSleeps_append (t1 t2 : List Event) :
    countSleeps (t1 ++ t2) = countSleeps t1 + countSleeps t2 := by
  simp [countSleeps, List.filter_append]

/-! ## Shared concrete scenario pieces -/

/-- A sign oracle that always succeeds, and inert client options. -/
def stdOpts : ClientOpts :=
  { chainId := "bluzelle", uuid := "20fc19d4-7c9d-4b5c-9578-8cedd756e0ea",
    address := "bluzelle1xhz23a58mku7ch3hx8f9hrx6he6gyujq57y3kp", pubKeyB64 := "A-PUBKEY",
    signFn := fun _ => .ok "SIG" }

/-- A create-style record with an all-zero (but present) gas policy. -/
def stdTxn : Transaction :=
  { key := "mykey", keyValues := [], lease := 0, n := 0, newKey := "", value := "myvalue",
    apiRequestMethod := "POST", apiRequestEndpoint := "/crud/create",
    gasInfo := some { maxGas := 0, maxFee := 0, gasPrice := 0 }, broadcastRetries := 0 }

/-- A fresh client: account number 3, sequence 5, no retries so far. -/
def stdClient : ClientSt := { account := { accountNumber := 3, sequence := 5 }, broadcastRetries := 0 }

/-- A validate response carrying a broadcast-payload template with fee
template gas "200000" and no fee amounts. -/
def okValidateBody : Json :=
  .obj [("type", .str "cosmos-sdk/StdTx"),
        ("value", .obj [("fee", .obj [("amount", .arr []), ("gas", .str "200000")]),
                        ("memo", .str "")])]

/-- The `raw_log` of the ledger's sequence-conflict failure response. -/
def conflictRawLog : String :=
  "unauthorized: signature verification failed; verify correct account sequence and chain-id"

/-- A broadcast response reporting a sequence conflict (nonzero code, the
conflict marker inside `raw_log`). -/
def conflictRespBody : Json :=
  .obj [("height", .str "0"), ("code", .num 4), ("raw_log", .str conflictRawLog)]

/-- A broadcast success response with no inline data. -/
def emptyRespBody : Json := .obj []

/-! ## The code-0 step of `BroadcastTransaction` -/

/-- One broadcast attempt whose response decodes with code 0: the account
sequence is incremented by exactly one, exactly one broadcast POST is
issued, and the result is empty for an empty `data` field, otherwise the
hex decoding of `data`. -/
theorem broadcast_code_zero_step
    (opts : ClientOpts) (txn : TransactionBroadcastPayload) (feeTemplate : TransactionFee)
    (gi : GasInfo) (cs : ClientSt) (w : World) (status : Nat) (body : Body) (j : Json)
    (res : TransactionBroadcastResponse) (sigOf : SignPayload → String)
    (rest : List (Except String (Nat × Body)))
    (hfee : txn.fee = some feeTemplate)
    (hsig : ∀ p, opts.signFn p = .ok (sigOf p))
    (hw : w.https = .ok (status, body) :: rest)
    (hp : parseResponse status body = .ok j)
    (hu : unmarshalBroadcastResponse j = .ok res)
    (hc : res.code = 0) :
    (broadcastTransaction opts (some txn) (some gi) cs w).1 =
        (if res.data = "" then Outcome.ret (some []) none
         else Outcome.ret (some (goHexDecode res.data).1) (goHexDecode res.data).2) ∧
      (broadcastTransaction opts (some txn) (some gi) cs w).2.1 =
        { cs with account := { cs.account with sequence := cs.account.sequence + 1 } } ∧
      countBroadcastPosts (broadcastTransaction opts (some txn) (some gi) cs w).2.2.trace =
        countBroadcastPosts w.trace + 1 ∧
      (broadcastTransaction opts (some txn) (some gi) cs w).2.2.https = rest := by
  rw [broadcastTransaction.eq_def]
  simp only [takeRandoms, hfee, signTransaction, hsig, apiMutate,
    httpRoundTrip, pushEvent_https, hw, hp, hu, hc]
  split_ifs with h1 h2 <;>
    simp_all [countBroadcastPosts, List.filter_append, isBroadcastPost]

/-- The broadcast-payload template delivered by `okValidateBody`. -/
def stdTemplateFee : TransactionFee := { amount := [], gas := "200000" }

def stdTemplatePayload : TransactionBroadcastPayload :=
  { fee := some stdTemplateFee, memo := "", msg := [], signatures := [] }

theorem parse_okValidateBody : parseResponse 200 (.json okValidateBody) = .ok okValidateBody := rfl

theorem unmarshal_okValidateBody :
    unmarshalValidateResponse okValidateBody = .ok ("cosmos-sdk/StdTx", some stdTemplatePayload) := rfl

/-- `ValidateTransaction` against the template body: consumes one HTTP
response, logs one validate POST, returns the template payload. -/
theorem validateTransaction_okBody (opts : ClientOpts) (txn : Transaction) (w : World)
    (rest : List (Except String (Nat × Body)))
    (hw : w.https = .ok (200, .json okValidateBody) :: rest) :
    validateTransaction opts txn w =
      (.ok (some stdTemplatePayload),
        { w with https := rest,
                 trace := w.trace ++ [.validatePost (mkValidateRequest opts txn)] }) := by
  simp only [validateTransaction, apiMutate, httpRoundTrip, pushEvent_https, hw,
    parse_okValidateBody, unmarshal_okValidateBody]
  simp [pushEvent]

/-- The transport script of `n` successful submissions: each consumes a
validate response and an empty success response. -/
def successHttps : Nat → List (Except String (Nat × Body))
  | 0 => []
  | n + 1 =>
      .ok (200, .json okValidateBody) :: .ok (200, .json emptyRespBody) :: successHttps n

/-- One full successful submission: outcome is the empty (non-nil) result,
the sequence advances by one, and the transport script advances by two. -/
theorem process_ok_projections (cs : ClientSt) (w : World)
    (rest : List (Except String (Nat × Body)))
    (hw : w.https = .ok (200, .json okValidateBody) :: .ok (200, .json emptyRespBody) :: rest) :
    (processTransaction stdOpts stdTxn cs w).1 = .ret (some []) none ∧
      (processTransaction stdOpts stdTxn cs w).2.1 =
        { cs with account := { cs.account with sequence := cs.account.sequence + 1 } } ∧
      (processTransaction stdOpts stdTxn cs w).2.2.https = rest := by
  have hv := validateTransaction_okBody stdOpts { stdTxn with broadcastRetries := 0 } w
    (.ok (200, .json emptyRespBody) :: rest) hw
  have hstep := broadcast_code_zero_step stdOpts stdTemplatePayload stdTemplateFee
    { maxGas := 0, maxFee := 0, gasPrice := 0 } cs
    { w with https := .ok (200, .json emptyRespBody) :: rest,
             trace := w.trace ++ [.validatePost (mkValidateRequest stdOpts { stdTxn with broadcastRetries := 0 })] }
    200 (.json emptyRespBody) emptyRespBody ⟨"", "", "", "", 0, "", ""⟩ (fun _ => "SIG") rest
    rfl (fun _ => rfl) rfl rfl rfl rfl
  simp only [processTransaction, hv]
  exact ⟨hstep.1.trans (by rfl), hstep.2.1, hstep.2.2.2⟩

/-- Repeated submission of the same record (the worker processes records
one at a time; each submission is one `processTransaction`). -/
def runSubs (opts : ClientOpts) (txn : Transaction) : Nat → ClientSt → World → ClientSt × World
  | 0, cs, w => (cs, w)
  | n + 1, cs, w =>
      let r := processTransaction opts txn cs w
      runSubs opts txn n r.2.1 r.2.2

/-- N consecutive successful submissions advance the sequence by exactly N. -/
theorem runSubs_success (n : Nat) : ∀ (cs : ClientSt) (w : World),
    w.https = successHttps n →
    (runSubs stdOpts stdTxn n cs w).1.account.sequence = cs.account.sequence + n := by
  induction n with
  | zero => intro cs w _; simp [runSubs]
  | succ n ih =>
    intro cs w h
    rw [successHttps] at h
    obtain ⟨h1, h2, h3⟩ := process_ok_projections cs w (successHttps n) h
    simp only [runSubs]
    rw [ih _ _ h3, h2]
    simp
    omega

/-- Claim C4: every broadcast response with numeric code 0 makes
`BroadcastTransaction` increment `AccountState.sequence` by exactly 1 and
return the empty (non-nil, non-error) result when the `data` field is
empty, otherwise the hex decoding of `data`; consequently N consecutive
successful submissions from a clean state raise the sequence by exactly N. -/
theorem claimC4_success_sequence :
    (∀ (opts : ClientOpts) (txn : TransactionBroadcastPayload) (feeTemplate : TransactionFee)
        (gi : GasInfo) (cs : ClientSt) (w : World) (status : Nat) (body : Body) (j : Json)
        (res : TransactionBroadcastResponse) (sigOf : SignPayload → String)
        (rest : List (Except String (Nat × Body))),
        txn.fee = some feeTemplate →
        (∀ p, opts.signFn p = .ok (sigOf p)) →
        w.https = .ok (status, body) :: rest →
        parseResponse status body = .ok j →
        unmarshalBroadcastResponse j = .ok res →
        res.code = 0 →
        (broadcastTransaction opts (some txn) (some gi) cs w).1 =
            (if res.data = "" then Outcome.ret (some []) none
             else Outcome.ret (some (goHexDecode res.data).1) (goHexDecode res.data).2) ∧
          (broadcastTransaction opts (some txn) (some gi) cs w).2.1 =
            { cs with account := { cs.account with sequence := cs.account.sequence + 1 } }) ∧
      ∀ (n : Nat) (cs : ClientSt) (w : World),
        w.https = successHttps n →
        (runSubs stdOpts stdTxn n cs w).1.account.sequence = cs.account.sequence + n := by
  refine ⟨?_, runSubs_success⟩
  intro opts txn feeTemplate gi cs w status body j res sigOf rest hfee hsig hw hp hu hc
  have h := broadcast_code_zero_step opts txn feeTemplate gi cs w status body j res sigOf rest
    hfee hsig hw hp hu hc
  exact ⟨h.1, h.2.1⟩

/-- Witness for claim C4: one code-0 broadcast at sequence 5 and a run of
three successful submissions. -/
theorem claimC4_success_sequence_witness :
    ((broadcastTransaction stdOpts (some stdTemplatePayload)
          (some { maxGas := 0, maxFee := 0, gasPrice := 0 }) stdClient
          { randDraws := [], https := [.ok (200, .json emptyRespBody)], resyncs := [],
            trace := [] }).1 =
        (if ("" : String) = "" then Outcome.ret (some []) none
         else Outcome.ret (some (goHexDecode "").1) (goHexDecode "").2) ∧
      (broadcastTransaction stdOpts (some stdTemplatePayload)
          (some { maxGas := 0, maxFee := 0, gasPrice := 0 }) stdClient
          { randDraws := [], https := [.ok (200, .json emptyRespBody)], resyncs := [],
            trace := [] }).2.1 =
        { stdClient with
            account := { stdClient.account with sequence := stdClient.account.sequence + 1 } }) ∧
      (runSubs stdOpts stdTxn 3 stdClient
          { randDraws := [], https := successHttps 3, resyncs := [], trace := [] }).1.account.sequence =
        stdClient.account.sequence + 3 :=
  ⟨claimC4_success_sequence.1 stdOpts stdTemplatePayload stdTemplateFee
      { maxGas := 0, maxFee := 0, gasPrice := 0 } stdClient
      { randDraws := [], https := [.ok (200, .json emptyRespBody)], resyncs := [], trace := [] }
      200 (.json emptyRespBody) emptyRespBody ⟨"", "", "", "", 0, "", ""⟩ (fun _ => "SIG") []
      rfl (fun _ => rfl) rfl rfl rfl rfl,
    claimC4_success_sequence.2 3 stdClient
      { randDraws := [], https := successHttps 3, resyncs := [], trace := [] } rfl⟩

/-- Claim C10: a code-0 broadcast response whose nonempty `data` field is
not valid hexadecimal makes `BroadcastTransaction` return an error to the
caller even though `AccountState.sequence` has already been incremented —
the error outcome is not atomic with respect to the account state. -/
theorem claimC10_nonatomic_hex_error
    (opts : ClientOpts) (txn : TransactionBroadcastPayload) (feeTemplate : TransactionFee)
    (gi : GasInfo) (cs : ClientSt) (w : World) (status : Nat) (body : Body) (j : Json)
    (res : TransactionBroadcastResponse) (sigOf : SignPayload → String)
    (rest : List (Except String (Nat × Body))) (bs : List Nat) (e : String)
    (hfee : txn.fee = some feeTemplate)
    (hsig : ∀ p, opts.signFn p = .ok (sigOf p))
    (hw : w.https = .ok (status, body) :: rest)
    (hp : parseResponse status body = .ok j)
    (hu : unmarshalBroadcastResponse j = .ok res)
    (hc : res.code = 0)
    (hd : res.data ≠ "")
    (hhex : goHexDecode res.data = (bs, some e)) :
    (broadcastTransaction opts (some txn) (some gi) cs w).1 = .ret (some bs) (some e) ∧
      (broadcastTransaction opts (some txn) (some gi) cs w).2.1.account.sequence =
        cs.account.sequence + 1 := by
  have h := broadcast_code_zero_step opts txn feeTemplate gi cs w status body j res sigOf rest
    hfee hsig hw hp hu hc
  constructor
  · rw [h.1, if_neg hd, hhex]
  · rw [h.2.1]

/-- Witness for claim C10: response `code 0, data "zz"` — the error and the
already-advanced sequence are both observable. -/
theorem claimC10_nonatomic_hex_error_witness :
    (broadcastTransaction stdOpts (some stdTemplatePayload)
          (some { maxGas := 0, maxFee := 0, gasPrice := 0 }) stdClient
          { randDraws := [], https := [.ok (200, .json (.obj [("data", .str "zz")]))],
            resyncs := [], trace := [] }).1 =
        .ret (some []) (some "encoding/hex: invalid byte") ∧
      (broadcastTransaction stdOpts (some stdTemplatePayload)
          (some { maxGas := 0, maxFee := 0, gasPrice := 0 }) stdClient
          { randDraws := [], https := [.ok (200, .json (.obj [("data", .str "zz")]))],
            resyncs := [], trace := [] }).2.1.account.sequence =
        stdClient.account.sequence + 1 :=
  claimC10_nonatomic_hex_error stdOpts stdTemplatePayload stdTemplateFee
    { maxGas := 0, maxFee := 0, gasPrice := 0 } stdClient
    { randDraws := [], https := [.ok (200, .json (.obj [("data", .str "zz")]))],
      resyncs := [], trace := [] }
    200 (.json (.obj [("data", .str "zz")])) (.obj [("data", .str "zz")])
    ⟨"", "", "zz", "", 0, "", ""⟩ (fun _ => "SIG") [] [] "encoding/hex: invalid byte"
    rfl (fun _ => rfl) rfl rfl rfl rfl (by decide) rfl

/-- `ValidateTransaction` always appends exactly its own POST event to the
trace, whatever the transport does. -/
theorem validateTransaction_trace (opts : ClientOpts) (txn : Transaction) (w : World) :
    (validateTransaction opts txn w).2.trace =
      w.trace ++ [Event.validatePost (mkValidateRequest opts txn)] := by
  simp only [validateTransaction]
  cases hw : w.https with
  | nil => simp [apiMutate, httpRoundTrip, hw, pushEvent]
  | cons r rest =>
    obtain (e | ⟨st, b⟩) := r
    · simp [apiMutate, httpRoundTrip, hw, pushEvent]
    · simp only [apiMutate, httpRoundTrip, pushEvent_https, hw]
      cases hp : parseResponse st b with
      | error e => simp [hp, pushEvent]
      | ok j =>
        simp only [hp]
        cases hu : unmarshalValidateResponse j with
        | error e => simp [hu, pushEvent]
        | ok v =>
          obtain ⟨ty, val⟩ := v
          simp [hu, pushEvent]

/-- The world in which the validate endpoint answers the template and no
further response exists. -/
def c2World : World :=
  { randDraws := [], https := [.ok (200, .json okValidateBody)], resyncs := [], trace := [] }

/-- A record submitted without any gas policy. -/
def noGasTxn : Transaction := { stdTxn with gasInfo := none }

/-- Counterexample to claim C2 as stated: with a nil gas policy the
pipeline *does* issue the validate HTTP request (one validate POST is on
the trace) before failing with the missing-gas-policy error — the failure
is not "before any network call". -/
theorem claimC2_counterexample :
    (processTransaction stdOpts noGasTxn stdClient c2World).1 =
        .ret none (some "gas_info is required") ∧
      countValidatePosts (processTransaction stdOpts noGasTxn stdClient c2World).2.2.trace = 1 := by
  have hv := validateTransaction_okBody stdOpts { noGasTxn with broadcastRetries := 0 } c2World [] rfl
  simp only [processTransaction, hv]
  rw [broadcastTransaction.eq_def]
  simp [takeRandoms, countValidatePosts, isValidatePost, List.filter_append, c2World,
    noGasTxn, stdTxn]

/-- Claim C2, amended: a record with no gas policy never causes a broadcast
POST and leaves the client state untouched, and — when validation returns a
payload — fails with exactly the `gas_info is required` error; but the
validate HTTP request itself is still issued first (see the
counterexample), so the failure is not "before any network call". -/
theorem claimC2_missing_gas (opts : ClientOpts) (txn : Transaction) (cs : ClientSt) (w : World)
    (hgas : txn.gasInfo = none) :
    countBroadcastPosts (processTransaction opts txn cs w).2.2.trace =
        countBroadcastPosts w.trace ∧
      (processTransaction opts txn cs w).2.1 = cs ∧
      ∀ p, (validateTransaction opts { txn with broadcastRetries := 0 } w).1 = .ok (some p) →
        (processTransaction opts txn cs w).1 = .ret none (some "gas_info is required") := by
  have htr := validateTransaction_trace opts { txn with broadcastRetries := 0 } w
  rcases hv : validateTransaction opts { txn with broadcastRetries := 0 } w with ⟨r, w1⟩
  rw [hv] at htr
  have htr2 : w1.trace = w.trace ++
      [Event.validatePost (mkValidateRequest opts { txn with broadcastRetries := 0 })] := by
    simpa using htr
  have hcount : countBroadcastPosts w1.trace = countBroadcastPosts w.trace := by
    simp [htr2, countBroadcastPosts, List.filter_append, isBroadcastPost]
  have hfst : (validateTransaction opts { txn with broadcastRetries := 0 } w).1 = r := by
    rw [hv]
  cases r with
  | error e =>
    refine ⟨?_, ?_, ?_⟩
    · simp only [processTransaction, hv]
      exact hcount
    · simp [processTransaction, hv]
    · intro p hp
      simp at hp
  | ok payload =>
    cases payload with
    | none =>
      refine ⟨?_, ?_, ?_⟩
      · simp only [processTransaction, hv]
        rw [broadcastTransaction.eq_def]
        exact hcount
      · simp only [processTransaction, hv]
        rw [broadcastTransaction.eq_def]
      · intro p hp
        simp at hp
    | some pl =>
      refine ⟨?_, ?_, ?_⟩
      · simp only [processTransaction, hv]
        rw [broadcastTransaction.eq_def]
        simp only [takeRandoms, hgas]
        simpa using hcount
      · simp only [processTransaction, hv]
        rw [broadcastTransaction.eq_def]
        simp [takeRandoms, hgas]
      · intro p _
        simp only [processTransaction, hv]
        rw [broadcastTransaction.eq_def]
        simp [takeRandoms, hgas]

/-- Witness for the amended claim C2 at the concrete no-gas record. -/
theorem claimC2_missing_gas_witness :
    countBroadcastPosts (processTransaction stdOpts noGasTxn stdClient c2World).2.2.trace =
        countBroadcastPosts c2World.trace ∧
      (processTransaction stdOpts noGasTxn stdClient c2World).2.1 = stdClient ∧
      (processTransaction stdOpts noGasTxn stdClient c2World).1 =
        .ret none (some "gas_info is required") := by
  have h := claimC2_missing_gas stdOpts noGasTxn stdClient c2World rfl
  exact ⟨h.1, h.2.1, h.2.2 stdTemplatePayload rfl⟩

/-- A validate response body with no `error` and no `value` field whose
`type` field is a (non-string) number. -/
def c9World : World :=
  { randDraws := [], https := [.ok (200, .json (.obj [("type", .num 5)]))], resyncs := [],
    trace := [] }

/-- Counterexample to claim C9 as stated: the body `\x7b"type": 5\x7d` has no
(or empty) `error` field and no `value` field, yet `ValidateTransaction`
returns a *decode error* (Go's `json.Unmarshal` rejects a number for the
string `Type` field), not a nil payload with nil error — so this record
ends with a returned error, not a nil-pointer crash. -/
theorem claimC9_counterexample :
    (validateTransaction stdOpts { stdTxn with broadcastRetries := 0 } c9World).1 =
        .error jsonTypeError ∧
      (processTransaction stdOpts stdTxn stdClient c9World).1 =
        .ret none (some jsonTypeError) := by
  constructor <;> rfl

/-- Claim C9, amended: if the validate endpoint returns a JSON object body
that decodes cleanly apart from the pointers — no (or empty) `error` field,
no `value` field, and a `type` field that is absent or a string — then
`ValidateTransaction` returns a nil payload with nil error, and
`ProcessTransaction` hands that nil pointer to `BroadcastTransaction`,
which writes its `Memo` field and crashes with a nil-pointer panic rather
than returning a decode error. -/
theorem claimC9_nil_value_panics
    (opts : ClientOpts) (txn : Transaction) (cs : ClientSt) (w : World)
    (fields : List (String × Json)) (status : Nat) (rest : List (Except String (Nat × Body)))
    (hw : w.https = .ok (status, .json (.obj fields)) :: rest)
    (herr : jlookupField fields "error" = none ∨ jlookupField fields "error" = some (.str ""))
    (hval : jlookupField fields "value" = none)
    (htype : jlookupField fields "type" = none ∨ ∃ s, jlookupField fields "type" = some (.str s)) :
    (validateTransaction opts { txn with broadcastRetries := 0 } w).1 = .ok none ∧
      (processTransaction opts txn cs w).1 =
        .panicked "runtime error: invalid memory address or nil pointer dereference" := by
  have hparse : parseResponse status (.json (.obj fields)) = .ok (.obj fields) := by
    rcases herr with h | h <;> simp [parseResponse, unmarshalErrorResponse, getStrField, h]
  have hty : ∃ ty, getStrField fields "type" = .ok ty := by
    rcases htype with h | ⟨s, h⟩
    · exact ⟨"", by simp [getStrField, h]⟩
    · exact ⟨s, by simp [getStrField, h]⟩
  obtain ⟨ty, hty⟩ := hty
  have hun : unmarshalValidateResponse (.obj fields) = .ok (ty, none) := by
    simp [unmarshalValidateResponse, hty, hval]
    rfl
  have hvt : validateTransaction opts { txn with broadcastRetries := 0 } w =
      (.ok none,
        { w with https := rest,
                 trace := w.trace ++
                   [.validatePost (mkValidateRequest opts { txn with broadcastRetries := 0 })] }) := by
    simp only [validateTransaction, apiMutate, httpRoundTrip, pushEvent_https, hw, hparse, hun]
    simp [pushEvent]
  constructor
  · rw [hvt]
  · simp only [processTransaction, hvt]
    rw [broadcastTransaction.eq_def]

/-- Witness for the amended claim C9 at the body `\x7b"type": "x"\x7d`. -/
theorem claimC9_nil_value_panics_witness :
    (validateTransaction stdOpts { stdTxn with broadcastRetries := 0 }
          { randDraws := [], https := [.ok (200, .json (.obj [("type", .str "x")]))],
            resyncs := [], trace := [] }).1 = .ok none ∧
      (processTransaction stdOpts stdTxn stdClient
          { randDraws := [], https := [.ok (200, .json (.obj [("type", .str "x")]))],
            resyncs := [], trace := [] }).1 =
        .panicked "runtime error: invalid memory address or nil pointer dereference" :=
  claimC9_nil_value_panics stdOpts stdTxn stdClient
    { randDraws := [], https := [.ok (200, .json (.obj [("type", .str "x")]))],
      resyncs := [], trace := [] }
    [("type", .str "x")] 200 [] rfl (.inl rfl) rfl (.inr ⟨"x", rfl⟩)

/-! ## Ground facts about the conflict / success response bodies -/

theorem parse_conflictBody : parseResponse 200 (.json conflictRespBody) = .ok conflictRespBody := rfl

theorem unmarshal_conflictBody :
    unmarshalBroadcastResponse conflictRespBody =
      .ok ⟨"0", "", "", "", 4, conflictRawLog, ""⟩ := rfl

theorem conflict_marker_found : goContains conflictRawLog conflictMarker = true := rfl

theorem parse_emptyBody : parseResponse 200 (.json emptyRespBody) = .ok emptyRespBody := rfl

theorem unmarshal_emptyBody :
    unmarshalBroadcastResponse emptyRespBody = .ok ⟨"", "", "", "", 0, "", ""⟩ := rfl

theorem resolve_stdFee :
    resolveFee stdTemplateFee { maxGas := 0, maxFee := 0, gasPrice := 0 } =
      { amount := [{ amount := "0", denom := "ubnt" }], gas := "200000" } := rfl

theorem resolve_stdFee2 :
    resolveFee { amount := [{ amount := "0", denom := "ubnt" }], gas := "200000" }
        { maxGas := 0, maxFee := 0, gasPrice := 0 } =
      { amount := [{ amount := "0", denom := "ubnt" }], gas := "200000" } := rfl

/-! ## Injectivity of the memo alphabet -/

theorem randChar_fin_inj :
    ∀ a b : Fin 62, randAlphabet.getD a.1 'A' = randAlphabet.getD b.1 'A' → a = b := by decide

theorem randChar_inj (a b : Nat) (ha : a < 62) (hb : b < 62)
    (h : randAlphabet.getD (a % 62) 'A' = randAlphabet.getD (b % 62) 'A') : a = b := by
  rw [Nat.mod_eq_of_lt ha, Nat.mod_eq_of_lt hb] at h
  have := randChar_fin_inj ⟨a, ha⟩ ⟨b, hb⟩ h
  simpa using congrArg Fin.val this

theorem chrMap_inj : ∀ l1 l2 : List Nat, (∀ x ∈ l1, x < 62) → (∀ x ∈ l2, x < 62) →
    l1.map (fun d => randAlphabet.getD (d % 62) 'A') =
      l2.map (fun d => randAlphabet.getD (d % 62) 'A') →
    l1 = l2 := by
  intro l1
  induction l1 with
  | nil =>
    intro l2 _ _ h
    cases l2 with
    | nil => rfl
    | cons b t => simp at h
  | cons a t ih =>
    intro l2 h1 h2 h
    cases l2 with
    | nil => simp at h
    | cons b t2 =>
      simp only [List.map_cons, List.cons.injEq] at h
      have hab := randChar_inj a b (h1 a (by simp)) (h2 b (by simp)) h.1
      have ht := ih t2 (fun x hx => h1 x (by simp [hx])) (fun x hx => h2 x (by simp [hx])) h.2
      rw [hab, ht]

/-- Distinct draw sequences (all draws below 62, as `rand.Intn(62)`
guarantees) yield distinct 32-character memos. -/
theorem makeRandomString_ne (d1 d2 : List Nat) (hl1 : d1.length = 32) (hl2 : d2.length = 32)
    (hb1 : ∀ x ∈ d1, x < 62) (hb2 : ∀ x ∈ d2, x < 62) (hne : d1 ≠ d2) :
    makeRandomString 32 d1 ≠ makeRandomString 32 d2 := by
  intro h
  apply hne
  have ht1 : d1.take 32 = d1 := by rw [← hl1]; exact List.take_length _
  have ht2 : d2.take 32 = d2 := by rw [← hl2]; exact List.take_length _
  unfold makeRandomString at h
  rw [ht1, ht2] at h
  exact chrMap_inj d1 d2 hb1 hb2 (String.data_eq_of_eq h)

theorem makeRandomString_len (d : List Nat) (hl : 32 ≤ d.length) :
    (makeRandomString 32 d).length = 32 := by
  simp [makeRandomString, String.length]
  omega

/-! ## Claim C5: a fresh memo per broadcast attempt -/

/-- A conflict on the first broadcast attempt followed by a successful
retry; the PRNG stream supplies the draws `d1` then `d2`. -/
def c5World (d1 d2 : List Nat) : World :=
  { randDraws := d1 ++ d2,
    https := [.ok (200, .json okValidateBody), .ok (200, .json conflictRespBody),
              .ok (200, .json emptyRespBody)],
    resyncs := [.ok ⟨3, 9⟩], trace := [] }

/-- Claim C5: when the first broadcast attempt ends in a sequence conflict,
the retry carries a freshly generated 32-character random memo — the two
broadcast POSTs carry `makeRandomString` of the first and of the second
block of PRNG draws respectively, each 32 characters long, and distinct
draws give distinct memos. -/
theorem claimC5_fresh_memo (d1 d2 : List Nat) (hl1 : d1.length = 32) (hl2 : d2.length = 32)
    (hb1 : ∀ x ∈ d1, x < 62) (hb2 : ∀ x ∈ d2, x < 62) :
    broadcastMemos (processTransaction stdOpts stdTxn stdClient (c5World d1 d2)).2.2.trace =
        [makeRandomString 32 d1, makeRandomString 32 d2] ∧
      (makeRandomString 32 d1).length = 32 ∧
      (makeRandomString 32 d2).length = 32 ∧
      (d1 ≠ d2 → makeRandomString 32 d1 ≠ makeRandomString 32 d2) := by
  refine ⟨?_, makeRandomString_len d1 (by omega), makeRandomString_len d2 (by omega),
    fun hne => makeRandomString_ne d1 d2 hl1 hl2 hb1 hb2 hne⟩
  have htake1 : (d1 ++ d2).take 32 = d1 := by rw [← hl1]; exact List.take_left _ _
  have hdrop1 : (d1 ++ d2).drop 32 = d2 := by rw [← hl1]; exact List.drop_left _ _
  have hm1 : makeRandomString 32 (d1 ++ d2) = makeRandomString 32 d1 := by
    unfold makeRandomString
    rw [htake1, ← hl1, List.take_length]
  have hv := validateTransaction_okBody stdOpts { stdTxn with broadcastRetries := 0 }
    (c5World d1 d2)
    [.ok (200, .json conflictRespBody), .ok (200, .json emptyRespBody)] rfl
  simp only [processTransaction, hv]
  rw [broadcastTransaction.eq_def]
  simp only [takeRandoms, signTransaction, stdOpts, apiMutate, httpRoundTrip, pushEvent_https,
    c5World, parse_conflictBody, unmarshal_conflictBody, conflict_marker_found,
    BROADCAST_MAX_RETRIES, setAccount, hm1, hdrop1, stdTxn, stdTemplatePayload, stdClient,
    resolve_stdFee]
  norm_num
  rw [broadcastTransaction.eq_def]
  simp only [takeRandoms, signTransaction, apiMutate, httpRoundTrip, pushEvent_https,
    parse_emptyBody, unmarshal_emptyBody, resolve_stdFee2, BROADCAST_MAX_RETRIES]
  norm_num
  simp [broadcastMemos, pushEvent]

/-- Witness for claim C5 with two concrete distinct draw blocks. -/
theorem claimC5_fresh_memo_witness :
    broadcastMemos (processTransaction stdOpts stdTxn stdClient
          (c5World (List.replicate 32 0) (1 :: List.replicate 31 0))).2.2.trace =
        [makeRandomString 32 (List.replicate 32 0),
         makeRandomString 32 (1 :: List.replicate 31 0)] ∧
      (makeRandomString 32 (List.replicate 32 0)).length = 32 ∧
      (makeRandomString 32 (1 :: List.replicate 31 0)).length = 32 ∧
      (List.replicate 32 0 ≠ 1 :: List.replicate 31 0 →
        makeRandomString 32 (List.replicate 32 0) ≠
          makeRandomString 32 (1 :: List.replicate 31 0)) :=
  claimC5_fresh_memo (List.replicate 32 0) (1 :: List.replicate 31 0)
    (by decide) (by decide) (by decide) (by decide)

/-! ## Claim C1: the retry bound and the cross-record counter -/

def conflictEntry : Except String (Nat × Body) := .ok (200, .json conflictRespBody)

def vOkEntry : Except String (Nat × Body) := .ok (200, .json okValidateBody)

/-- A transport stub that always answers broadcasts with the conflict
marker: enough responses for a first submission (1 validate + 10
broadcasts) and a second one (1 validate + more conflicts), with nine
successful resyncs available. -/
def c1World : World :=
  { randDraws := [],
    https := [vOkEntry, conflictEntry, conflictEntry, conflictEntry, conflictEntry,
              conflictEntry, conflictEntry, conflictEntry, conflictEntry, conflictEntry,
              conflictEntry, vOkEntry, conflictEntry],
    resyncs := [.ok ⟨3, 7⟩, .ok ⟨3, 7⟩, .ok ⟨3, 7⟩, .ok ⟨3, 7⟩, .ok ⟨3, 7⟩, .ok ⟨3, 7⟩,
                .ok ⟨3, 7⟩, .ok ⟨3, 7⟩, .ok ⟨3, 7⟩],
    trace := [] }

/-- The first record submitted on a fresh client. -/
def c1Run1 : Outcome × ClientSt × World := processTransaction stdOpts stdTxn stdClient c1World

/-- The second record submitted on the same client afterwards. -/
def c1Run2 : Outcome × ClientSt × World :=
  processTransaction stdOpts stdTxn c1Run1.2.1 c1Run1.2.2

set_option maxHeartbeats 2000000 in
/-- Full evaluation of the first submission: retry-exhausted error after
exactly 10 broadcast POSTs and 9 resyncs, each resync immediately preceded
by the 1-second backoff, leaving the client counter at 10. -/
theorem c1_run1_eval :
    c1Run1.1 = .ret none (some "txn failed after max retry attempts") ∧
      c1Run1.2.1 = { account := ⟨3, 7⟩, broadcastRetries := 10 } ∧
      c1Run1.2.2.https = [vOkEntry, conflictEntry] ∧
      c1Run1.2.2.resyncs = [] ∧
      c1Run1.2.2.randDraws = [] ∧
      countBroadcastPosts c1Run1.2.2.trace = 10 ∧
      countResyncs c1Run1.2.2.trace = 9 ∧
      countSleeps c1Run1.2.2.trace = 9 ∧
      resyncsPrecededBySleep c1Run1.2.2.trace = true := by
  have hv := validateTransaction_okBody stdOpts { stdTxn with broadcastRetries := 0 } c1World
    [conflictEntry, conflictEntry, conflictEntry, conflictEntry, conflictEntry, conflictEntry,
     conflictEntry, conflictEntry, conflictEntry, conflictEntry, vOkEntry, conflictEntry] rfl
  unfold c1Run1
  simp only [processTransaction, hv]
  iterate 10
    (rw [broadcastTransaction.eq_def]
     simp [takeRandoms, signTransaction, stdOpts, apiMutate, httpRoundTrip, pushEvent,
       conflictEntry, parse_conflictBody, unmarshal_conflictBody, conflict_marker_found,
       BROADCAST_MAX_RETRIES, setAccount, stdTxn, stdTemplatePayload, stdClient, c1World,
       resolve_stdFee, resolve_stdFee2])
  simp [countBroadcastPosts, countResyncs, countSleeps, resyncsPrecededBySleep,
    resyncsPrecededBySleepAux, isBroadcastPost, isResync, isSleep]

/-- A submission started with the client counter already at 10 dies after a
single conflicting broadcast attempt, with no resync at all: the counter
the loop consults is never reset per record (`ProcessTransaction` zeroes
the unused `Transaction.broadcastRetries` field instead). -/
theorem c1_run2_general (cs : ClientSt) (w : World)
    (rest : List (Except String (Nat × Body)))
    (hret : cs.broadcastRetries = 10)
    (hw : w.https = vOkEntry :: conflictEntry :: rest) :
    (processTransaction stdOpts stdTxn cs w).1 =
        .ret none (some "txn failed after max retry attempts") ∧
      countBroadcastPosts (processTransaction stdOpts stdTxn cs w).2.2.trace =
        countBroadcastPosts w.trace + 1 ∧
      countResyncs (processTransaction stdOpts stdTxn cs w).2.2.trace = countResyncs w.trace := by
  have hv := validateTransaction_okBody stdOpts { stdTxn with broadcastRetries := 0 } w
    (conflictEntry :: rest) (by rw [hw]; rfl)
  simp only [processTransaction, hv]
  rw [broadcastTransaction.eq_def]
  simp [takeRandoms, signTransaction, stdOpts, apiMutate, httpRoundTrip, pushEvent,
    conflictEntry, parse_conflictBody, unmarshal_conflictBody, conflict_marker_found,
    BROADCAST_MAX_RETRIES, setAccount, stdTxn, stdTemplatePayload, resolve_stdFee, hret,
    countBroadcastPosts, countResyncs, isBroadcastPost, isResync, List.filter_append]

/-- Claim C1 (against the code): on a transport stub that always reports
the conflict marker, the *first* submission fails with the retry-exhausted
error after exactly 10 broadcast attempts and 9 backoff-preceded resyncs —
but the very next submission on the same client fails after a single
attempt with no resync (10 → 11 posts, 9 → 9 resyncs), because
`BroadcastTransaction` counts on `ctx.broadcastRetries` (never reset) while
`ProcessTransaction` resets only the record's own unused counter. -/
theorem claimC1_retry_counter_bug :
    c1Run1.1 = .ret none (some "txn failed after max retry attempts") ∧
      countBroadcastPosts c1Run1.2.2.trace = 10 ∧
      countResyncs c1Run1.2.2.trace = 9 ∧
      countSleeps c1Run1.2.2.trace = 9 ∧
      resyncsPrecededBySleep c1Run1.2.2.trace = true ∧
      c1Run1.2.1.broadcastRetries = 10 ∧
      c1Run2.1 = .ret none (some "txn failed after max retry attempts") ∧
      countBroadcastPosts c1Run2.2.2.trace = 11 ∧
      countResyncs c1Run2.2.2.trace = 9 := by
  obtain ⟨h1, h2, h3, h4, h5, h6, h7, h8, h9⟩ := c1_run1_eval
  obtain ⟨g1, g2, g3⟩ :=
    c1_run2_general c1Run1.2.1 c1Run1.2.2 [] (by rw [h2]) (by rw [h3])
  unfold c1Run2
  refine ⟨h1, h6, h7, h8, h9, by rw [h2], g1, ?_, ?_⟩
  · rw [g2, h6]
  · rw [g3, h7]
